import Mathlib

/-
Verification development for the revm-provider crate: a shallow embedding of
`src/provider.rs` (the execution provider over an abstract execution engine) and
`src/contract.rs` (the ABI-aware contract binding), with theorems checking the
crate's specification against the embedded code.

The revm EVM and the ethers ABI codec are external collaborators of the crate;
the embedding keeps them abstract (an `Engine` record of transact functions) or
models them from the specification's description of the collaborator (the
schema codec), as noted on each definition. The provider's lock is not
modelled: operations pass the execution context explicitly, matching the
serialized access the lock guarantees.
-/

namespace Revm

/-- Ethereum-style address, a fixed-width identifier, modelled as a natural number. -/
abbrev Address := Nat

/-- Unsigned 256-bit value; the claims involve no overflowing arithmetic, so plain Nat. -/
abbrev U256 := Nat

/-- Raw byte sequence. -/
abbrev Bytes := List Nat

/-- Log record emitted by the engine (revm `Log`: address, topics, data), passed through
opaquely by the provider. -/
structure Log where
  address : Address
  topics : List Nat
  data : Bytes
  deriving DecidableEq, Repr

/-- Account record stored in the database (revm `AccountInfo`: balance, nonce, code hash,
optional code). -/
structure AccountInfo where
  balance : U256
  nonce : Nat
  codeHash : Nat
  code : Option Bytes
  deriving DecidableEq, Repr

/-- Default account record (revm `AccountInfo::default`): zero balance, zero nonce, no code. -/
def AccountInfo.default : AccountInfo :=
  { balance := 0, nonce := 0, codeHash := 0, code := none }

/-- Association-list lookup for the cached account map. -/
def lookupAssoc : List (Address × AccountInfo) → Address → Option AccountInfo
  | [], _ => none
  | (b, i) :: rest, a => if b = a then some i else lookupAssoc rest a

/-- Association-list insertion with replacement, modelling the map insert used by the
revm `CacheDB` account map. -/
def insertAssoc : List (Address × AccountInfo) → Address → AccountInfo → List (Address × AccountInfo)
  | [], a, i => [(a, i)]
  | (b, j) :: rest, a, i => if b = a then (a, i) :: rest else (b, j) :: insertAssoc rest a i

/-- In-memory account database, revm `CacheDB<EmptyDB>` restricted to the account map the
provider touches; the `EmptyDB` fallback answers nothing for unseen addresses. -/
structure Db where
  accounts : List (Address × AccountInfo)
  deriving DecidableEq, Repr

/-- Database read (revm `CacheDB::basic` over `EmptyDB`): a cached account is returned, an
unseen address falls through to `EmptyDB`, which answers `Ok(None)`; the lookup itself
cannot fail. -/
def Db.basic (db : Db) (a : Address) : Except String (Option AccountInfo) :=
  match lookupAssoc db.accounts a with
  | some info => .ok (some info)
  | none => .ok none

/-- Database insert (revm `CacheDB::insert_account_info`): stores the record, replacing any
previous record at that address. -/
def Db.insert_account_info (db : Db) (a : Address) (info : AccountInfo) : Db :=
  { accounts := insertAssoc db.accounts a info }

/-- Transaction target (revm `TransactTo`): call an existing address, or create a contract. -/
inductive TransactTo where
  | call (a : Address)
  | create
  deriving DecidableEq, Repr

/-- Transaction environment (revm `TxEnv`), restricted to the fields this crate sets. -/
structure TxEnv where
  caller : Address
  transactTo : TransactTo
  data : Bytes
  value : U256
  deriving DecidableEq, Repr

/-- Default transaction environment (revm `TxEnv::default`): zero caller, call to the zero
address, empty data, zero value. -/
def TxEnv.default : TxEnv :=
  { caller := 0, transactTo := .call 0, data := [], value := 0 }

/-- Output of a successful execution (revm `Output`): raw call return bytes, or create
output with the optionally created address. -/
inductive Output where
  | call (bits : Bytes)
  | create (bits : Bytes) (addr : Option Address)
  deriving DecidableEq, Repr

/-- Execution outcome (revm `ExecutionResult`): Success, Revert or Halt. Success and halt
reason codes are opaque to this crate and modelled as strings. -/
inductive ExecutionResult where
  | success (reason : String) (gasUsed : Nat) (gasRefunded : Nat) (logs : List Log)
      (output : Output)
  | revert (gasUsed : Nat) (output : Bytes)
  | halt (reason : String) (gasUsed : Nat)
  deriving DecidableEq, Repr

/-- Execution engine collaborator (the revm `EVM`): `transactCommit` models
`transact_commit`, which may change the database exactly when it succeeds;
`transactRef` models `transact_ref`, whose immutable receiver cannot change the database,
so it returns none. Either may fail with an engine invocation error, kept distinct from
the three outcome variants. -/
structure Engine where
  transactCommit : TxEnv → Db → Except String (ExecutionResult × Db)
  transactRef : TxEnv → Db → Except String ExecutionResult

/-- Execution context wrapped by the provider (`EthVmInner`): the environment's current
transaction and the cache database. -/
structure EthVmInner where
  txEnv : TxEnv
  db : Db
  deriving Repr

/-- Fresh execution context (`EthVmInner::new`): empty cache database over `EmptyDB`. -/
def EthVmInner.new : EthVmInner :=
  { txEnv := TxEnv.default, db := { accounts := [] } }

/-- Committing execution (`EthVmInner::write`): store the transaction in the environment and
run `transact_commit`; an engine invocation error is surfaced as a hard failure carrying
the source's "error with write" message and leaves the database unchanged. -/
def EthVmInner.write (eng : Engine) (s : EthVmInner) (tx : TxEnv) :
    Except String ExecutionResult × EthVmInner :=
  match eng.transactCommit tx s.db with
  | .ok (r, db') => (.ok r, { txEnv := tx, db := db' })
  | .error e => (.error ("error with write: " ++ e), { s with txEnv := tx })

/-- Read-only execution (`EthVmInner::read`): store the transaction in the environment and
run `transact_ref`; no database mutation is possible; an engine invocation error is
surfaced with the source's "error with simulate write..." message. -/
def EthVmInner.read (eng : Engine) (s : EthVmInner) (tx : TxEnv) :
    Except String ExecutionResult × EthVmInner :=
  match eng.transactRef tx s.db with
  | .ok r => (.ok r, { s with txEnv := tx })
  | .error _ => (.error "error with simulate write...", { s with txEnv := tx })

/-- Balance read (`EthVmInner::balance_of`): query `db.basic`, defaulting to zero when the
account is absent. -/
def EthVmInner.balance_of (s : EthVmInner) (user : Address) : U256 :=
  match s.db.basic user with
  | .ok (some account) => account.balance
  | _ => 0

/-- Account creation (`EthVmInner::add_account`): a default record, its balance set to the
optional value when given, inserted over whatever was stored; always returns success. -/
def EthVmInner.add_account (s : EthVmInner) (user : Address) (value : Option U256) :
    Except String Unit × EthVmInner :=
  let info :=
    match value with
    | some v => { AccountInfo.default with balance := v }
    | none => AccountInfo.default
  (.ok (), { s with db := s.db.insert_account_info user info })

/-- Outcome classification (`process_execution_result`): Success yields output, gas used and
logs; Revert becomes a failure whose message embeds the revert payload; Halt becomes a
failure whose message embeds the halt reason. -/
def process_execution_result (result : ExecutionResult) :
    Except String (Output × Nat × List Log) :=
  match result with
  | .success _ gasUsed _ logs output => .ok (output, gasUsed, logs)
  | .revert _ output => .error ("Failed due to revert: " ++ toString output)
  | .halt reason _ => .error ("Failed due to halt: " ++ reason)

/-- Call-shaped extraction (`process_result_with_value`): classify the outcome, then require
call-output bytes; a create-shaped output is the "expected call output" failure. -/
def process_result_with_value (result : ExecutionResult) :
    Except String (Bytes × Nat × List Log) :=
  match process_execution_result result with
  | .error e => .error e
  | .ok (output, gasUsed, logs) =>
    match output with
    | .call bits => .ok (bits, gasUsed, logs)
    | _ => .error "expected call output"

namespace RevmProvider

/-- Fresh provider context (`RevmProvider::new`). -/
def new : EthVmInner :=
  EthVmInner.new

/-- Contract deployment (`RevmProvider::deploy`): commit the transaction, classify the
outcome, then require a created address; any other success output is the
"expected a create call" failure. -/
def deploy (eng : Engine) (s : EthVmInner) (tx : TxEnv) :
    Except String (Address × Nat) × EthVmInner :=
  match EthVmInner.write eng s tx with
  | (.error e, s') => (.error e, s')
  | (.ok r, s') =>
    match process_execution_result r with
    | .error e => (.error e, s')
    | .ok (output, gas, _) =>
      match output with
      | .create _ (some a) => (.ok (a, gas), s')
      | _ => (.error "expected a create call", s')

/-- Committing transaction send (`RevmProvider::send`): commit, then extract call output. -/
def send (eng : Engine) (s : EthVmInner) (tx : TxEnv) :
    Except String (Bytes × Nat × List Log) × EthVmInner :=
  match EthVmInner.write eng s tx with
  | (.error e, s') => (.error e, s')
  | (.ok r, s') => (process_result_with_value r, s')

/-- Read-only call (`RevmProvider::call`): execute without committing, then extract call
output with the same extraction contract as `send`. -/
def call (eng : Engine) (s : EthVmInner) (tx : TxEnv) :
    Except String (Bytes × Nat × List Log) × EthVmInner :=
  match EthVmInner.read eng s tx with
  | (.error e, s') => (.error e, s')
  | (.ok r, s') => (process_result_with_value r, s')

/-- Value transfer (`RevmProvider::transfer`): default transaction with the caller, the call
target and the value, delegated to `send`. -/
def transfer (eng : Engine) (s : EthVmInner) (fromAddr toAddr : Address) (value : U256) :
    Except String (Bytes × Nat × List Log) × EthVmInner :=
  send eng s
    { TxEnv.default with caller := fromAddr, transactTo := .call toAddr, value := value }

/-- Balance query (`RevmProvider::balance_of`): total, never fails. -/
def balance_of (s : EthVmInner) (user : Address) : U256 :=
  EthVmInner.balance_of s user

/-- Account creation with optional funding (`RevmProvider::create_account`). -/
def create_account (s : EthVmInner) (user : Address) (value : Option U256) :
    Except String Unit × EthVmInner :=
  EthVmInner.add_account s user value

end RevmProvider

/-- Parameter or return type in a function signature (the schema codec's type universe,
reduced to the shapes the claims need). -/
inductive ParamType where
  | uint
  | address
  | bytes
  deriving DecidableEq, Repr

/-- Typed argument or return token for the schema codec. -/
inductive Token where
  | uint (n : Nat)
  | address (a : Address)
  | bytes (b : Bytes)
  deriving DecidableEq, Repr

/-- Type tag of a token. -/
def Token.paramType : Token → ParamType
  | .uint _ => .uint
  | .address _ => .address
  | .bytes _ => .bytes

/-- Byte encoding of one token; the concrete bytes are irrelevant to the claims. -/
def Token.encodeBytes : Token → Bytes
  | .uint n => [0, n]
  | .address a => [1, a]
  | .bytes b => 2 :: b

/-- Function signature in a Contract Interface Schema: name, parameter types, return types. -/
structure FunctionSig where
  name : String
  inputs : List ParamType
  outputs : List ParamType
  deriving DecidableEq, Repr

/-- Parsed interface schema (ethers `BaseContract`): the table of callable functions. -/
structure BaseContract where
  functions : List FunctionSig
  deriving DecidableEq, Repr

/-- Modelled from the spec: the Schema Codec collaborator's encoder (ethers
`BaseContract::encode`, external to this crate) — "encodes `args` against `function_name`'s
signature in the schema (fails with an encoding error if the name is unknown or argument
shapes mismatch the signature)". -/
def BaseContract.encode (c : BaseContract) (name : String) (args : List Token) :
    Except String Bytes :=
  match c.functions.find? (fun f => f.name == name) with
  | none => .error ("encoding error: function not found: " ++ name)
  | some f =>
    if args.map Token.paramType = f.inputs then
      .ok ((args.map Token.encodeBytes).flatten)
    else
      .error ("encoding error: argument shapes mismatch for " ++ name)

/-- Modelled from the spec: token decoding against a list of declared return types, used by
the Schema Codec collaborator's decoder. -/
def decodeTokens : List ParamType → Bytes → Option (List Token)
  | [], [] => some []
  | ParamType.uint :: rest, 0 :: n :: more =>
    (decodeTokens rest more).map (fun ts => Token.uint n :: ts)
  | ParamType.address :: rest, 1 :: a :: more =>
    (decodeTokens rest more).map (fun ts => Token.address a :: ts)
  | [ParamType.bytes], 2 :: b => some [Token.bytes b]
  | _, _ => none

/-- Modelled from the spec: the Schema Codec collaborator's decoder (ethers
`BaseContract::decode_output`) — "decodes the returned bytes against the function's declared
return types (fails with a decoding error on shape mismatch)". -/
def BaseContract.decode_output (c : BaseContract) (name : String) (bits : Bytes) :
    Except String (List Token) :=
  match c.functions.find? (fun f => f.name == name) with
  | none => .error ("decoding error: function not found: " ++ name)
  | some f =>
    match decodeTokens f.outputs bits with
    | some ts => .ok ts
    | none => .error ("decoding error: shape mismatch for " ++ name)

/-- Contract binding (`Contract`): a parsed schema plus an optional bound address. -/
structure Contract where
  contract : BaseContract
  address : Option Address
  deriving DecidableEq, Repr

/-- Binding construction (`From<Abi> for Contract` and `From<&ContractMetadata>`): the
schema is bound with the address unset. -/
def Contract.fromBase (b : BaseContract) : Contract :=
  { contract := b, address := none }

/-- Re-addressing (`Contract::at`): clone the binding and set the address. The binding is a
pure value here, exactly as the source clones before mutating, so the original binding is
untouched. -/
def Contract.at (c : Contract) (a : Address) : Contract :=
  { c with address := some a }

/-- Read-only contract invocation (`Contract::call`): fail fast when no address is bound;
encode the arguments, propagating an encoding error before any provider interaction;
build a call-mode transaction; dispatch through `RevmProvider.call`; decode the returned
bytes. -/
def Contract.call (eng : Engine) (c : Contract) (s : EthVmInner) (name : String)
    (args : List Token) (caller : Address) :
    Except String (List Token × Nat × List Log) × EthVmInner :=
  match c.address with
  | none => (.error "missing contract address", s)
  | some addr =>
    match c.contract.encode name args with
    | .error e => (.error e, s)
    | .ok encoded =>
      let tx :=
        { TxEnv.default with caller := caller, transactTo := .call addr, data := encoded }
      match RevmProvider.call eng s tx with
      | (.error e, s') => (.error e, s')
      | (.ok (bits, gasUsed, logs), s') =>
        match c.contract.decode_output name bits with
        | .error e => (.error e, s')
        | .ok v => (.ok (v, gasUsed, logs), s')

/-- Mutating contract invocation (`Contract::send`): fail fast when no address is bound;
encode, propagating an encoding error unwrapped; build a call-mode transaction, setting
the optional value; dispatch through `RevmProvider.send`; decode. Dispatch or decode
failures are wrapped with the source's "oops " prefix. -/
def Contract.send (eng : Engine) (c : Contract) (s : EthVmInner) (name : String)
    (args : List Token) (caller : Address) (value : Option U256) :
    Except String (List Token × Nat × List Log) × EthVmInner :=
  match c.address with
  | none => (.error "missing contract address", s)
  | some addr =>
    match c.contract.encode name args with
    | .error e => (.error e, s)
    | .ok encoded =>
      let tx0 :=
        { TxEnv.default with caller := caller, transactTo := .call addr, data := encoded }
      let tx :=
        match value with
        | some v => { tx0 with value := v }
        | none => tx0
      match RevmProvider.send eng s tx with
      | (.error e, s') => (.error ("oops " ++ e), s')
      | (.ok (bits, gasUsed, logs), s') =>
        match c.contract.decode_output name bits with
        | .error e => (.error ("oops " ++ e), s')
        | .ok v => (.ok (v, gasUsed, logs), s')

/-- Static deployment helper (`Contract::deploy`): create-mode transaction carrying the init
bytecode, delegated to the provider's deploy. -/
def Contract.deploy (eng : Engine) (s : EthVmInner) (deployer : Address) (bincode : Bytes) :
    Except String (Address × Nat) × EthVmInner :=
  RevmProvider.deploy eng s
    { TxEnv.default with caller := deployer, transactTo := .create, data := bincode }

/-- Contract metadata (`ContractMetadata`): interface text plus creation bytecode. -/
structure ContractMetadata where
  abi : String
  bytecode : Bytes
  deriving DecidableEq, Repr

/-- Parsed artifact document (ethers `JsonAbi` as consumed by the loader): either a full
object carrying an interface description and optional creation bytecode, or some other
document shape. -/
inductive JsonAbi where
  | object (abi : String) (bytecode : Option Bytes)
  | other
  deriving DecidableEq, Repr

/-- Artifact loading decision (`From<&str> for ContractMetadata`, after the file read and
json parse): a full object with bytecode yields metadata; a missing bytecode field is the
source's "missing bytecode" panic, modelled as an error so no metadata value is produced;
any other document shape is likewise fatal. -/
def ContractMetadata.fromJson : JsonAbi → Except String ContractMetadata
  | .object abi (some bc) => .ok { abi := abi, bytecode := bc }
  | .object _ none => .error "missing bytecode"
  | .other => .error "expected a full contract metadata json file"

/-- Trivial engine used to instantiate theorems at concrete inputs: it always succeeds with
an empty call output and never touches the database. -/
def stopEngine : Engine :=
  { transactCommit := fun _ db => .ok (.success "stop" 0 0 [] (.call []), db),
    transactRef := fun _ _ => .ok (.success "stop" 0 0 [] (.call [])) }

/-- Concrete engine whose executions all report a created contract at address 42 using 7
gas, used to instantiate theorems about create-shaped outputs. -/
def createEngine : Engine :=
  { transactCommit := fun _ db => .ok (.success "create" 7 0 [] (.create [] (some 42)), db),
    transactRef := fun _ _ => .ok (.success "create" 7 0 [] (.create [] (some 42))) }

/-- Concrete one-function schema used to instantiate the contract-binding theorems. -/
def counterSchema : BaseContract :=
  { functions := [{ name := "inc", inputs := [ParamType.uint], outputs := [ParamType.uint] }] }

theorem lookupAssoc_insertAssoc_self (l : List (Address × AccountInfo)) (a : Address)
    (i : AccountInfo) : lookupAssoc (insertAssoc l a i) a = some i := by
  induction l with
  | nil => simp [insertAssoc, lookupAssoc]
  | cons p rest ih =>
    obtain ⟨b, j⟩ := p
    by_cases hb : b = a
    · simp [insertAssoc, hb, lookupAssoc]
    · simp [insertAssoc, hb, lookupAssoc, ih]

theorem lookupAssoc_insertAssoc_ne (l : List (Address × AccountInfo)) (a w : Address)
    (i : AccountInfo) (h : w ≠ a) :
    lookupAssoc (insertAssoc l a i) w = lookupAssoc l w := by
  induction l with
  | nil => simp [insertAssoc, lookupAssoc, Ne.symm h]
  | cons p rest ih =>
    obtain ⟨b, j⟩ := p
    by_cases hb : b = a
    · subst hb
      simp [insertAssoc, lookupAssoc, Ne.symm h]
    · simp [insertAssoc, hb, lookupAssoc, ih]

theorem insertAssoc_insertAssoc_same (l : List (Address × AccountInfo)) (a : Address)
    (i i' : AccountInfo) :
    insertAssoc (insertAssoc l a i) a i' = insertAssoc l a i' := by
  induction l with
  | nil => simp [insertAssoc]
  | cons p rest ih =>
    obtain ⟨b, j⟩ := p
    by_cases hb : b = a
    · simp [insertAssoc, hb]
    · simp [insertAssoc, hb, ih]

/-- C2: the provider's `call` runs the transaction without committing: for every engine,
context and transaction environment the account database after `call` is exactly the
database before it, and consequently `balance_of` is unchanged for every address,
whatever the execution outcome would have mutated had it been committed. -/
theorem c2_call_read_isolation (eng : Engine) (s : EthVmInner) (tx : TxEnv) :
    (RevmProvider.call eng s tx).2.db = s.db ∧
    ∀ a : Address,
      RevmProvider.balance_of (RevmProvider.call eng s tx).2 a
        = RevmProvider.balance_of s a := by
  have hstate : (RevmProvider.call eng s tx).2 = { s with txEnv := tx } := by
    cases h : eng.transactRef tx s.db with
    | ok r => simp [RevmProvider.call, EthVmInner.read, h]
    | error e => simp [RevmProvider.call, EthVmInner.read, h]
  constructor
  · rw [hstate]
  · intro a
    rw [hstate]
    simp [RevmProvider.balance_of, EthVmInner.balance_of]

/-- C3: invoking `call` or `send` on a contract binding with no bound address fails with the
"missing contract address" error, for every engine, schema, function name, argument list
and caller, leaving the execution context untouched — so neither encoding nor any
provider or engine interaction happens. -/
theorem c3_unbound_rejected (eng : Engine) (c : Contract) (s : EthVmInner) (name : String)
    (args : List Token) (caller : Address) (value : Option U256)
    (h : c.address = none) :
    Contract.call eng c s name args caller = (.error "missing contract address", s) ∧
    Contract.send eng c s name args caller value = (.error "missing contract address", s) := by
  constructor
  · simp [Contract.call, h]
  · simp [Contract.send, h]

theorem c3_unbound_rejected_witness :
    Contract.call stopEngine (Contract.fromBase counterSchema) EthVmInner.new "inc" [] 0
      = (.error "missing contract address", EthVmInner.new) ∧
    Contract.send stopEngine (Contract.fromBase counterSchema) EthVmInner.new "inc" [] 0 none
      = (.error "missing contract address", EthVmInner.new) :=
  c3_unbound_rejected stopEngine (Contract.fromBase counterSchema) EthVmInner.new
    "inc" [] 0 none rfl

/-- C5: `create_account` always returns success, and funding is idempotent in the
last-write-wins sense: creating the same account twice with the same value leaves exactly
the state one call leaves, every observed balance matches, and the second call's value
overwrites (rather than adds to) whatever value an earlier call stored. -/
theorem c5_create_account_idempotent (s : EthVmInner) (u : Address) (v : Option U256) :
    (RevmProvider.create_account s u v).1 = .ok () ∧
    (RevmProvider.create_account (RevmProvider.create_account s u v).2 u v).2
      = (RevmProvider.create_account s u v).2 ∧
    (∀ w : Address,
      RevmProvider.balance_of
          (RevmProvider.create_account (RevmProvider.create_account s u v).2 u v).2 w
        = RevmProvider.balance_of (RevmProvider.create_account s u v).2 w) ∧
    (∀ v0 : Option U256,
      RevmProvider.balance_of
          (RevmProvider.create_account (RevmProvider.create_account s u v0).2 u v).2 u
        = v.getD 0) := by
  have hstate :
      (RevmProvider.create_account (RevmProvider.create_account s u v).2 u v).2
        = (RevmProvider.create_account s u v).2 := by
    simp [RevmProvider.create_account, EthVmInner.add_account, Db.insert_account_info,
      insertAssoc_insertAssoc_same]
  refine ⟨rfl, hstate, fun w => by rw [hstate], ?_⟩
  intro v0
  cases v with
  | none =>
    simp [RevmProvider.create_account, EthVmInner.add_account, Db.insert_account_info,
      RevmProvider.balance_of, EthVmInner.balance_of, Db.basic,
      lookupAssoc_insertAssoc_self, AccountInfo.default]
  | some w =>
    simp [RevmProvider.create_account, EthVmInner.add_account, Db.insert_account_info,
      RevmProvider.balance_of, EthVmInner.balance_of, Db.basic,
      lookupAssoc_insertAssoc_self, AccountInfo.default]

/-- C7: `create_account` replaces the whole stored record: after the call the account map
holds exactly a default record whose balance is the given value (zero when absent) — any
previous balance, nonce and code are discarded — and in particular creating a previously
funded account with no value resets its observed balance to zero. -/
theorem c7_create_account_resets (s : EthVmInner) (u : Address) (v : Option U256) :
    lookupAssoc (RevmProvider.create_account s u v).2.db.accounts u
      = some { balance := v.getD 0, nonce := 0, codeHash := 0, code := none } ∧
    (∀ w : U256,
      RevmProvider.balance_of
          (RevmProvider.create_account
            (RevmProvider.create_account s u (some w)).2 u none).2 u
        = 0) := by
  constructor
  · cases v with
    | none =>
      simp [RevmProvider.create_account, EthVmInner.add_account, Db.insert_account_info,
        lookupAssoc_insertAssoc_self, AccountInfo.default]
    | some w =>
      simp [RevmProvider.create_account, EthVmInner.add_account, Db.insert_account_info,
        lookupAssoc_insertAssoc_self, AccountInfo.default]
  · intro w
    simp [RevmProvider.create_account, EthVmInner.add_account, Db.insert_account_info,
      RevmProvider.balance_of, EthVmInner.balance_of, Db.basic,
      lookupAssoc_insertAssoc_self, AccountInfo.default]

/-- C8: `balance_of` is total (it returns a value for every address by construction) and an
address with no stored record — in particular any address against a fresh provider —
observes a zero balance. -/
theorem c8_balance_of_default_zero (s : EthVmInner) (u : Address) :
    (lookupAssoc s.db.accounts u = none → RevmProvider.balance_of s u = 0) ∧
    RevmProvider.balance_of RevmProvider.new u = 0 := by
  constructor
  · intro h
    simp [RevmProvider.balance_of, EthVmInner.balance_of, Db.basic, h]
  · rfl

theorem c8_balance_of_default_zero_witness :
    lookupAssoc (RevmProvider.new).db.accounts 5 = none ∧
    RevmProvider.balance_of RevmProvider.new 5 = 0 :=
  ⟨rfl, (c8_balance_of_default_zero RevmProvider.new 5).1 rfl⟩

/-- C9: re-addressing a binding with `at` yields a new binding whose address field is the
given address and whose schema is the original's; the transform is a pure value
operation (the source clones before mutating), so the original binding is unchanged. -/
theorem c9_at_value_semantics (c : Contract) (a : Address) :
    (Contract.at c a).address = some a ∧ (Contract.at c a).contract = c.contract :=
  ⟨rfl, rfl⟩

/-- C10: loading contract metadata from an artifact document whose bytecode field is absent
always fails (the source panics with "missing bytecode"), and a metadata value is
produced exactly for full objects that do carry creation bytecode. -/
theorem c10_missing_bytecode_load_fails (abi : String) (d : JsonAbi) :
    ContractMetadata.fromJson (JsonAbi.object abi none) = .error "missing bytecode" ∧
    ((∃ m, ContractMetadata.fromJson d = .ok m) ↔ ∃ a b, d = JsonAbi.object a (some b)) := by
  constructor
  · rfl
  · constructor
    · rintro ⟨m, hm⟩
      cases d with
      | object a bc =>
        cases bc with
        | some b => exact ⟨a, b, rfl⟩
        | none => simp [ContractMetadata.fromJson] at hm
      | other => simp [ContractMetadata.fromJson] at hm
    · rintro ⟨a, b, rfl⟩
      exact ⟨{ abi := a, bytecode := b }, rfl⟩

theorem c10_missing_bytecode_load_fails_witness :
    ContractMetadata.fromJson (JsonAbi.object "abi" none) = .error "missing bytecode" ∧
    ∃ a b, JsonAbi.object "abi" (some [1]) = JsonAbi.object a (some b) :=
  ⟨(c10_missing_bytecode_load_fails "abi" (JsonAbi.object "abi" (some [1]))).1,
   (c10_missing_bytecode_load_fails "abi" (JsonAbi.object "abi" (some [1]))).2.mp
     ⟨{ abi := "abi", bytecode := [1] }, rfl⟩⟩

/-- C1: outcome classification precedence. For every engine, context and transaction:
`send`, `call` and `deploy` first surface an engine invocation error (tagged "error with
write" / "error with simulate write...") before any outcome variant is considered; once
an outcome is obtained, `process_execution_result` turns a Revert into a failure whose
message embeds the revert payload and a Halt into a failure whose message embeds the halt
reason, and it produces an Ok result only for a Success outcome. -/
theorem c1_outcome_precedence (eng : Engine) (s : EthVmInner) (tx : TxEnv) :
    (RevmProvider.send eng s tx =
      match eng.transactCommit tx s.db with
      | .error e => (.error ("error with write: " ++ e), { s with txEnv := tx })
      | .ok (r, db') => (process_result_with_value r, { txEnv := tx, db := db' })) ∧
    (RevmProvider.call eng s tx =
      match eng.transactRef tx s.db with
      | .error _ => (.error "error with simulate write...", { s with txEnv := tx })
      | .ok r => (process_result_with_value r, { s with txEnv := tx })) ∧
    (RevmProvider.deploy eng s tx =
      match eng.transactCommit tx s.db with
      | .error e => (.error ("error with write: " ++ e), { s with txEnv := tx })
      | .ok (r, db') =>
        ((match process_execution_result r with
          | .error e => .error e
          | .ok (output, gas, _) =>
            match output with
            | .create _ (some a) => .ok (a, gas)
            | _ => .error "expected a create call"),
         { txEnv := tx, db := db' })) ∧
    (∀ g o, process_execution_result (.revert g o)
        = .error ("Failed due to revert: " ++ toString o)) ∧
    (∀ reason g, process_execution_result (.halt reason g)
        = .error ("Failed due to halt: " ++ reason)) ∧
    (∀ reason g refunded logs output,
      process_execution_result (.success reason g refunded logs output)
        = .ok (output, g, logs)) ∧
    (∀ (r : ExecutionResult) (x : Output × Nat × List Log),
      process_execution_result r = .ok x →
      ∃ reason refunded, r = .success reason x.2.1 refunded x.2.2 x.1) := by
  refine ⟨?_, ?_, ?_, fun g o => rfl, fun reason g => rfl,
    fun reason g refunded logs output => rfl, ?_⟩
  · cases h : eng.transactCommit tx s.db with
    | error e => simp [RevmProvider.send, EthVmInner.write, h]
    | ok p =>
      obtain ⟨r, db'⟩ := p
      simp [RevmProvider.send, EthVmInner.write, h]
  · cases h : eng.transactRef tx s.db with
    | error e => simp [RevmProvider.call, EthVmInner.read, h]
    | ok r => simp [RevmProvider.call, EthVmInner.read, h]
  · cases h : eng.transactCommit tx s.db with
    | error e => simp [RevmProvider.deploy, EthVmInner.write, h]
    | ok p =>
      obtain ⟨r, db'⟩ := p
      simp only [RevmProvider.deploy, EthVmInner.write, h]
      cases hr : process_execution_result r with
      | error e => simp [hr]
      | ok y =>
        obtain ⟨output, gas, ls⟩ := y
        cases output with
        | call bits => simp [hr]
        | create bits oa =>
          cases oa with
          | none => simp [hr]
          | some a => simp [hr]
  · intro r x hx
    obtain ⟨o, g', ls⟩ := x
    cases r with
    | success reason g refunded logs output =>
      simp [process_execution_result] at hx
      rcases hx with ⟨rfl, rfl, rfl⟩
      exact ⟨reason, refunded, rfl⟩
    | revert g o2 => simp [process_execution_result] at hx
    | halt reason g => simp [process_execution_result] at hx

theorem c1_outcome_precedence_witness :
    process_execution_result (ExecutionResult.success "stop" 3 0 [] (Output.call [7]))
        = .ok (Output.call [7], 3, []) ∧
    ∃ reason refunded,
      ExecutionResult.success "stop" 3 0 [] (Output.call [7])
        = ExecutionResult.success reason 3 refunded [] (Output.call [7]) :=
  ⟨rfl,
    (c1_outcome_precedence stopEngine EthVmInner.new TxEnv.default).2.2.2.2.2.2
      (ExecutionResult.success "stop" 3 0 [] (Output.call [7])) (Output.call [7], 3, []) rfl⟩

/-- C4: `deploy` succeeds exactly when the committed execution is a Success whose output is
a created address: that address and the gas used are returned; a Success with call-output
bytes (or a create output with no address) makes `deploy` fail with "expected a create
call"; symmetrically, `send` and `call` fail with the "expected call output" shape error
when their Success output is create-shaped. -/
theorem c4_deploy_output_shape (eng : Engine) (s : EthVmInner) (tx : TxEnv) :
    ((∃ a g, (RevmProvider.deploy eng s tx).1 = .ok (a, g)) ↔
      (∃ db' reason g refunded logs bits a,
        eng.transactCommit tx s.db
          = .ok (.success reason g refunded logs (.create bits (some a)), db'))) ∧
    (∀ db' reason g refunded logs bits a,
      eng.transactCommit tx s.db
          = .ok (.success reason g refunded logs (.create bits (some a)), db') →
      (RevmProvider.deploy eng s tx).1 = .ok (a, g)) ∧
    (∀ db' reason g refunded logs bits,
      eng.transactCommit tx s.db = .ok (.success reason g refunded logs (.call bits), db') →
      (RevmProvider.deploy eng s tx).1 = .error "expected a create call") ∧
    (∀ db' reason g refunded logs bits,
      eng.transactCommit tx s.db
          = .ok (.success reason g refunded logs (.create bits none), db') →
      (RevmProvider.deploy eng s tx).1 = .error "expected a create call") ∧
    (∀ db' reason g refunded logs bits oa,
      eng.transactCommit tx s.db
          = .ok (.success reason g refunded logs (.create bits oa), db') →
      (RevmProvider.send eng s tx).1 = .error "expected call output") ∧
    (∀ reason g refunded logs bits oa,
      eng.transactRef tx s.db = .ok (.success reason g refunded logs (.create bits oa)) →
      (RevmProvider.call eng s tx).1 = .error "expected call output") := by
  refine ⟨⟨?_, ?_⟩, ?_, ?_, ?_, ?_, ?_⟩
  · rintro ⟨a, g, hok⟩
    cases h : eng.transactCommit tx s.db with
    | error e => simp [RevmProvider.deploy, EthVmInner.write, h] at hok
    | ok p =>
      obtain ⟨r, db'⟩ := p
      cases r with
      | success reason g2 refunded logs output =>
        cases output with
        | call bits =>
          simp [RevmProvider.deploy, EthVmInner.write, h, process_execution_result] at hok
        | create bits oa =>
          cases oa with
          | none =>
            simp [RevmProvider.deploy, EthVmInner.write, h, process_execution_result] at hok
          | some a2 =>
            simp [RevmProvider.deploy, EthVmInner.write, h, process_execution_result] at hok
            rcases hok with ⟨rfl, rfl⟩
            exact ⟨db', reason, g2, refunded, logs, bits, a2, rfl⟩
      | revert g2 o =>
        simp [RevmProvider.deploy, EthVmInner.write, h, process_execution_result] at hok
      | halt reason g2 =>
        simp [RevmProvider.deploy, EthVmInner.write, h, process_execution_result] at hok
  · rintro ⟨db', reason, g, refunded, logs, bits, a, h⟩
    exact ⟨a, g, by
      simp [RevmProvider.deploy, EthVmInner.write, h, process_execution_result]⟩
  · intro db' reason g refunded logs bits a h
    simp [RevmProvider.deploy, EthVmInner.write, h, process_execution_result]
  · intro db' reason g refunded logs bits h
    simp [RevmProvider.deploy, EthVmInner.write, h, process_execution_result]
  · intro db' reason g refunded logs bits h
    simp [RevmProvider.deploy, EthVmInner.write, h, process_execution_result]
  · intro db' reason g refunded logs bits oa h
    simp [RevmProvider.send, EthVmInner.write, h, process_result_with_value,
      process_execution_result]
  · intro reason g refunded logs bits oa h
    simp [RevmProvider.call, EthVmInner.read, h, process_result_with_value,
      process_execution_result]

theorem c4_deploy_output_shape_witness :
    (createEngine.transactCommit TxEnv.default (EthVmInner.new).db
        = .ok (.success "create" 7 0 [] (.create [] (some 42)), (EthVmInner.new).db)) ∧
    (RevmProvider.deploy createEngine EthVmInner.new TxEnv.default).1 = .ok (42, 7) ∧
    (RevmProvider.send createEngine EthVmInner.new TxEnv.default).1
        = .error "expected call output" ∧
    (RevmProvider.call createEngine EthVmInner.new TxEnv.default).1
        = .error "expected call output" ∧
    (RevmProvider.deploy stopEngine EthVmInner.new TxEnv.default).1
        = .error "expected a create call" :=
  ⟨rfl,
    (c4_deploy_output_shape createEngine EthVmInner.new TxEnv.default).2.1
      (EthVmInner.new).db "create" 7 0 [] [] 42 rfl,
    (c4_deploy_output_shape createEngine EthVmInner.new TxEnv.default).2.2.2.2.1
      (EthVmInner.new).db "create" 7 0 [] [] (some 42) rfl,
    (c4_deploy_output_shape createEngine EthVmInner.new TxEnv.default).2.2.2.2.2
      "create" 7 0 [] [] (some 42) rfl,
    (c4_deploy_output_shape stopEngine EthVmInner.new TxEnv.default).2.2.1
      (EthVmInner.new).db "stop" 0 0 [] [] rfl⟩

/-- C6: invoking a bound binding's `call` or `send` with a function name the schema does not
contain — or with arguments whose type shapes mismatch the named function's signature —
fails with the codec's encoding error and leaves the execution context untouched, for
every engine, so no provider dispatch or engine interaction occurs. -/
theorem c6_unknown_function_encoding_error (eng : Engine) (c : Contract) (s : EthVmInner)
    (name : String) (args : List Token) (caller : Address) (value : Option U256)
    (addr : Address) (haddr : c.address = some addr) :
    (c.contract.functions.find? (fun f => f.name == name) = none →
      Contract.call eng c s name args caller
          = (.error ("encoding error: function not found: " ++ name), s) ∧
      Contract.send eng c s name args caller value
          = (.error ("encoding error: function not found: " ++ name), s)) ∧
    (∀ f, c.contract.functions.find? (fun f => f.name == name) = some f →
      args.map Token.paramType ≠ f.inputs →
      Contract.call eng c s name args caller
          = (.error ("encoding error: argument shapes mismatch for " ++ name), s) ∧
      Contract.send eng c s name args caller value
          = (.error ("encoding error: argument shapes mismatch for " ++ name), s)) := by
  constructor
  · intro hf
    constructor
    · simp [Contract.call, haddr, BaseContract.encode, hf]
    · simp [Contract.send, haddr, BaseContract.encode, hf]
  · intro f hf hargs
    constructor
    · simp [Contract.call, haddr, BaseContract.encode, hf, hargs]
    · simp [Contract.send, haddr, BaseContract.encode, hf, hargs]

theorem c6_unknown_function_encoding_error_witness :
    (counterSchema.functions.find? (fun f => f.name == "nope") = none ∧
      Contract.call stopEngine (Contract.at (Contract.fromBase counterSchema) 9)
          EthVmInner.new "nope" [] 0
        = (.error ("encoding error: function not found: " ++ "nope"), EthVmInner.new)) ∧
    (counterSchema.functions.find? (fun f => f.name == "inc")
        = some { name := "inc", inputs := [ParamType.uint], outputs := [ParamType.uint] } ∧
      Contract.send stopEngine (Contract.at (Contract.fromBase counterSchema) 9)
          EthVmInner.new "inc" [] 0 none
        = (.error ("encoding error: argument shapes mismatch for " ++ "inc"),
           EthVmInner.new)) :=
  ⟨⟨by decide,
    ((c6_unknown_function_encoding_error stopEngine
        (Contract.at (Contract.fromBase counterSchema) 9) EthVmInner.new "nope" [] 0 none
        9 rfl).1 (by decide)).1⟩,
   ⟨by decide,
    ((c6_unknown_function_encoding_error stopEngine
        (Contract.at (Contract.fromBase counterSchema) 9) EthVmInner.new "inc" [] 0 none
        9 rfl).2 { name := "inc", inputs := [ParamType.uint], outputs := [ParamType.uint] }
        (by decide) (by decide)).2⟩⟩

end Revm
